import Mathlib

/-!
Shallow embedding of the SubGram verification gate:
the webhook reconciliation path (`bot/webhook.py`, both route variants),
the inline middleware path (`bot/middlewares.py`), and the prompt policy.
The persistent store (`bot/database.py`, not present in the sources) is
modelled from the specification's Store interface.
-/

/-- Modelled from the spec: `bot/database.py` is missing from the sources.
One row of the UserRecord store (§3 of the spec): id, balance,
referred_by, username and the verification flag. -/
structure UserRecord where
  telegram_id : Int
  balance : Int
  referred_by : Option Int
  username : Option String
  flyer_verified : Bool
deriving DecidableEq, Repr

/-- Modelled from the spec: the store is a row set keyed by telegram_id. -/
abbrev Store := List UserRecord

/-- Modelled from the spec: `db.get_user` — look the row up by key. -/
def get_user (s : Store) (id : Int) : Option UserRecord :=
  s.find? (fun u => u.telegram_id = id)

/-- Modelled from the spec: `db.create_user(telegram_id, balance, referred_by,
username)` — createIfAbsent; a fresh row starts unverified. -/
def create_user (s : Store) (id : Int) (bal : Int) (ref : Option Int)
    (un : Option String) : Store :=
  if (get_user s id).isSome then s
  else s ++ [⟨id, bal, ref, un, false⟩]

/-- Modelled from the spec: an UPDATE of the row with the given key
(a no-op when the row is absent). -/
def updateUser (s : Store) (id : Int) (f : UserRecord → UserRecord) : Store :=
  s.map (fun u => if u.telegram_id = id then f u else u)

/-- Modelled from the spec: `db.update_username`. -/
def update_username (s : Store) (id : Int) (un : String) : Store :=
  updateUser s id (fun u => { u with username := some un })

/-- Modelled from the spec: `db.set_flyer_verified`. -/
def set_flyer_verified (s : Store) (id : Int) (b : Bool) : Store :=
  updateUser s id (fun u => { u with flyer_verified := b })

/-- Modelled from the spec: `db.assign_referrer` — a plain field write; the
set-once discipline is proved to come from the gate's own guard, not assumed
of the store. -/
def assign_referrer (s : Store) (id : Int) (ref : Int) : Store :=
  updateUser s id (fun u => { u with referred_by := some ref })

/-- Modelled from the spec: `db.update_balance` — atomic increment. -/
def update_balance (s : Store) (id : Int) (delta : Int) : Store :=
  updateUser s id (fun u => { u with balance := u.balance + delta })

/-- The verification flag the code reads: `bool(user and user.flyer_verified)`. -/
def wasVerifiedIn (s : Store) (id : Int) : Bool :=
  match get_user s id with
  | some u => u.flyer_verified
  | none => false

/-- The referrer currently stored for a user. -/
def referredByIn (s : Store) (id : Int) : Option Int :=
  (get_user s id).bind (fun u => u.referred_by)

/-- The balance currently stored for a user. -/
def balanceOf (s : Store) (id : Int) : Option Int :=
  (get_user s id).map (fun u => u.balance)

/-! ## Webhook path (`bot/webhook.py`) -/

/-- One entry of the webhook batch after JSON extraction:
`{user_id, status, username}`. -/
structure WebhookEvent where
  user_id : Int
  status : Option String
  username : Option String
deriving DecidableEq, Repr

/-- Side effects the webhook handler schedules. -/
inductive WEffect
  | triggerStartFlow (id : Int)
  | notifyUnsubscribed (chatId : Int)
  | handleUnsubscription (id : Int)
deriving DecidableEq, Repr

/-- Python truthiness of an optional string (None and "" are falsy). -/
def strTruthy (x : Option String) : Option String :=
  match x with
  | some s => if s = "" then none else some s
  | none => none

/-- Python `str.startswith`, char by char. -/
def listStartsWith : List Char → List Char → Bool
  | _, [] => true
  | [], _ :: _ => false
  | c :: cs, p :: ps => c = p && listStartsWith cs ps

/-- Python `str.startswith` on strings. -/
def pyStartsWith (s p : String) : Bool :=
  listStartsWith s.data p.data

/-- Python `str.lower` (ASCII case folding, which is all the code needs). -/
def pyLower (s : String) : String :=
  ⟨s.data.map Char.toLower⟩

/-- Python `str.strip`: drop leading and trailing whitespace. -/
def pyStrip (s : String) : String :=
  ⟨((s.data.dropWhile Char.isWhitespace).reverse.dropWhile
      Char.isWhitespace).reverse⟩

/-- Python `str.split()` with no separator: split on whitespace runs and
drop empty pieces. -/
def pySplitWsAux : List Char → List Char → List String
  | [], acc => if acc.isEmpty then [] else [⟨acc.reverse⟩]
  | c :: cs, acc =>
      if c.isWhitespace then
        if acc.isEmpty then pySplitWsAux cs []
        else ⟨acc.reverse⟩ :: pySplitWsAux cs []
      else pySplitWsAux cs (c :: acc)

/-- Python `str.split()` on a string. -/
def pySplitWs (s : String) : List String :=
  pySplitWsAux s.data []

/-- Python `str.isdigit` (ASCII digits). -/
def pyIsDigit (s : String) : Bool :=
  !s.data.isEmpty && s.data.all Char.isDigit

/-- Python `int(...)` on an all-digit string. -/
def pyParseNat (s : String) : Nat :=
  s.data.foldl (fun n c => n * 10 + (c.toNat - 48)) 0

/-- Python slicing `s[3:]`. -/
def pyDrop (s : String) (n : Nat) : String :=
  ⟨s.data.drop n⟩

/-- `_ensure_user_record`: create the row if absent, else refresh the username
when a truthy username differs from the stored one; returns the row as the
caller sees it afterwards. -/
def ensure_user_record (s : Store) (tid : Int) (un : Option String) :
    Store × UserRecord :=
  match get_user s tid with
  | none =>
      let s1 := create_user s tid 0 none un
      (s1, (get_user s1 tid).getD ⟨tid, 0, none, un, false⟩)
  | some u =>
      match strTruthy un with
      | some nm =>
          if u.username ≠ some nm then
            (update_username s tid nm, { u with username := some nm })
          else (s, u)
      | none => (s, u)

/-- `status in {"subscribed", "notgetted"}` test of both webhook variants. -/
def isSubscribedStatus (st : Option String) : Bool :=
  st == some "subscribed" || st == some "notgetted"

/-- One event of the second `subgram_webhook` route variant
(webhook.py lines 257-318): ensure the row, remember the prior flag, set
verified, and start the flow only when the user was not verified before. -/
def subgram_webhook_second_event (s : Store) (ev : WebhookEvent) :
    Store × List WEffect :=
  if isSubscribedStatus ev.status then
    let r := ensure_user_record s ev.user_id ev.username
    let already := r.2.flyer_verified
    let s2 := set_flyer_verified r.1 ev.user_id true
    (s2, if already then [] else [.triggerStartFlow ev.user_id])
  else if ev.status = some "unsubscribed" then
    let s1 := set_flyer_verified s ev.user_id false
    let r := ensure_user_record s1 ev.user_id ev.username
    (r.1, [.handleUnsubscription ev.user_id, .notifyUnsubscribed ev.user_id])
  else (s, [])

/-- The batch loop of the second route variant. -/
def subgram_webhook_second (s : Store) : List WebhookEvent → Store × List WEffect
  | [] => (s, [])
  | ev :: rest =>
      let r := subgram_webhook_second_event s ev
      let r2 := subgram_webhook_second r.1 rest
      (r2.1, r.2 ++ r2.2)

/-- State of the first route variant's loop: the store, the function-local
`already_verified` (unbound until its first assignment, carried across loop
iterations), the effects so far, and whether an unbound-variable error was
raised. -/
structure V1Out where
  store : Store
  av : Option Bool
  effects : List WEffect
  errored : Bool
deriving DecidableEq, Repr

/-- One event of the first `subgram_webhook` route variant
(webhook.py lines 146-222): `already_verified` is assigned only inside the
subscribed branch but read unconditionally afterwards; the variant never
writes `set_flyer_verified(..., True)`; the unsubscribed branch is reached
only when `already_verified` is bound and true. -/
def subgram_webhook_first_event (s : Store) (av : Option Bool)
    (ev : WebhookEvent) : V1Out :=
  let step1 : Store × Option Bool :=
    if isSubscribedStatus ev.status then
      let r := ensure_user_record s ev.user_id ev.username
      (r.1, some r.2.flyer_verified)
    else (s, av)
  match step1.2 with
  | none => ⟨step1.1, none, [], true⟩
  | some b =>
      if !b then
        ⟨step1.1, some b, [.triggerStartFlow ev.user_id], false⟩
      else if ev.status = some "unsubscribed" then
        let s2 := set_flyer_verified step1.1 ev.user_id false
        let r := ensure_user_record s2 ev.user_id ev.username
        ⟨r.1, some b,
          [.handleUnsubscription ev.user_id, .notifyUnsubscribed ev.user_id],
          false⟩
      else ⟨step1.1, some b, [], false⟩

/-- The batch loop of the first route variant; an unbound-variable error
aborts the request. -/
def subgram_webhook_first (s : Store) (av : Option Bool) :
    List WebhookEvent → V1Out
  | [] => ⟨s, av, [], false⟩
  | ev :: rest =>
      let r := subgram_webhook_first_event s av ev
      if r.errored then ⟨r.store, r.av, r.effects, true⟩
      else
        let r2 := subgram_webhook_first r.store r.av rest
        ⟨r2.store, r2.av, r.effects ++ r2.effects, r2.errored⟩

/-! ## Inline path (`bot/middlewares.py`, `SubgramCheckMiddleware`) -/

/-- The Telegram user fields the middleware reads. -/
structure TgUser where
  id : Int
  username : Option String
  language_code : Option String
deriving DecidableEq, Repr

/-- The incoming update: a message (chat id, text), a callback query
(optional data, optional chat id of the attached message), or anything
else. -/
inductive TgEvent
  | message (chatId : Int) (text : Option String)
  | callback (data : Option String) (msgChatId : Option Int)
  | other
deriving DecidableEq, Repr

/-- `_resolve_chat_id`. -/
def resolve_chat_id : TgEvent → Option Int
  | .message c _ => some c
  | .callback _ mc => mc
  | .other => none

/-- `_is_subgram_callback`: a callback query whose data starts with
"subgram". -/
def is_subgram_callback : TgEvent → Bool
  | .callback (some d) _ => pyStartsWith d "subgram"
  | _ => false

/-- The `LANGUAGE_BLOCK_MESSAGES` table, in its insertion order. -/
def LANGUAGE_BLOCK_MESSAGES : List (String × String) :=
  [("fa", "متأسفانه این ربات برای شما در دسترس نیست."),
   ("ar", "للأسف، هذا البوت غير متاح لك."),
   ("tr", "Maalesef bu bot size uygun değildir.")]

/-- `_get_language_block_message`: a falsy language code is never blocked;
otherwise the first prefix of the table matching the lowercased code wins. -/
def get_language_block_message (lc : Option String) : Option String :=
  match strTruthy lc with
  | none => none
  | some c =>
      let normalized := pyLower c
      (LANGUAGE_BLOCK_MESSAGES.find? (fun p => pyStartsWith normalized p.1)).map
        (fun p => p.2)

/-- `_extract_referred_by`: only a "/start refNNN" message yields a referrer,
and never the user's own id. -/
def extract_referred_by (ev : TgEvent) (telegram_id : Int) : Option Int :=
  match ev with
  | .message _ txt =>
      let text := pyStrip (txt.getD "")
      if !pyStartsWith text "/start" then none
      else
        let toks := pySplitWs text
        match toks.get? 1 with
        | none => none
        | some arg =>
            if !pyStartsWith (pyLower arg) "ref" then none
            else
              let sfx := pyDrop arg 3
              if !pyIsDigit sfx then none
              else
                let rb : Int := pyParseNat sfx
                if rb = telegram_id then none else some rb
  | _ => none

/-- `_remember_user_context`: create the row with the extracted referrer when
absent; otherwise refresh the username and assign the referrer only when one
is carried, it differs from the user's own id, and none is stored yet. -/
def remember_user_context (s : Store) (tid : Int) (un : Option String)
    (rb : Option Int) (userRec : Option UserRecord) : Store :=
  match userRec with
  | none => create_user s tid 0 rb un
  | some r =>
      let s1 :=
        match un with
        | some nm => if some nm ≠ r.username then update_username s tid nm else s
        | none => s
      match rb with
      | some rv =>
          if rv ≠ tid ∧ r.referred_by = none then assign_referrer s1 tid rv
          else s1
      | none => s1

/-- One sponsor entry of the oracle's `additional.sponsors` list. -/
structure Sponsor where
  available_now : Option Bool
  status : Option String
  link : Option String
  button_text : Option String
  resource_name : Option String
deriving DecidableEq, Repr

/-- The oracle's `additional` object. -/
structure Additional where
  sponsors : Option (List Sponsor)
  registration_url : Option String
deriving DecidableEq, Repr

/-- The decoded oracle response body. -/
structure OracleResponse where
  status : Option String
  message : Option String
  code : Option Int
  additional : Option Additional
deriving DecidableEq, Repr

/-- An inline keyboard button action: open a link, fire a callback, or open
a web app. -/
inductive BtnAction
  | urlA (u : String)
  | cbA (d : String)
  | webAppA (u : String)
deriving DecidableEq, Repr

/-- An inline keyboard button. -/
structure Button where
  text : String
  action : BtnAction
deriving DecidableEq, Repr

/-- Python's `a or b` on strings: the first truthy operand. -/
def pyOrStr (a : Option String) (b : String) : String :=
  match strTruthy a with
  | some s => s
  | none => b

/-- `_build_sponsor_prompt`: keep sponsors that are available now, whose
status is absent or "unsubscribed", and that carry a truthy link; when any
survive, render one link button per task plus the trailing completion
button. -/
def build_sponsor_prompt (resp : OracleResponse) (builder : List Button)
    (base_text : Option String) : Option (String × List Button) :=
  let addl := resp.additional.getD ⟨none, none⟩
  match addl.sponsors with
  | none => none
  | some sponsors =>
      let acc := sponsors.foldl
        (fun (acc : List Button × List String) sp =>
          if !(sp.available_now.getD true) then acc
          else if ¬ (sp.status = none ∨ sp.status = some "unsubscribed") then acc
          else
            match strTruthy sp.link with
            | none => acc
            | some l =>
                let bt := pyOrStr sp.button_text "Подписаться"
                let nm := pyOrStr sp.resource_name bt
                (acc.1 ++ [⟨bt, .urlA l⟩], acc.2 ++ [nm]))
        (builder, [])
      if acc.2.isEmpty then none
      else
        let btns := acc.1 ++ [⟨"✅ Я выполнил", .cbA "subgram-op"⟩]
        let msg :=
          match strTruthy base_text with
          | some m => some m
          | none => strTruthy resp.message
        let task_lines :=
          String.intercalate "\n" (acc.2.map (fun t => "• " ++ t))
        let text :=
          match msg with
          | some m =>
              m ++ "\n\nЧтобы продолжить, выполните задания:\n" ++ task_lines
                ++ "\n\nПосле выполнения нажмите «✅ Я выполнил»."
          | none =>
              "Чтобы продолжить, выполните задания:\n" ++ task_lines
                ++ "\n\nПосле выполнения нажмите «✅ Я выполнил»."
        some (text, btns)

/-- The six fixed age-bracket buttons. -/
def ageButtonRows : List Button :=
  [⟨"Младше 10", .cbA "subgram_age_c1"⟩, ⟨"11-13", .cbA "subgram_age_c2"⟩,
   ⟨"14-15", .cbA "subgram_age_c3"⟩, ⟨"16-17", .cbA "subgram_age_c4"⟩,
   ⟨"18-24", .cbA "subgram_age_c5"⟩, ⟨"25 и старше", .cbA "subgram_age_c6"⟩]

/-- `_build_blocking_prompt`: dispatch on the blocking status; warning defers
to the sponsor prompt, gender and age render fixed choices, register merges a
registration web-app button with the sponsor prompt. -/
def build_blocking_prompt (resp : OracleResponse) (status : Option String) :
    Option (String × List Button) :=
  if status = some "warning" then build_sponsor_prompt resp [] none
  else if status = some "gender" then
    some ("Укажите ваш пол:",
      [⟨"Мужской", .cbA "subgram_gender_male"⟩,
       ⟨"Женский", .cbA "subgram_gender_female"⟩])
  else if status = some "age" then
    some ("Укажите ваш возраст:", ageButtonRows)
  else if status = some "register" then
    let addl := resp.additional.getD ⟨none, none⟩
    let reg := strTruthy addl.registration_url
    let builder : List Button :=
      match reg with
      | some u => [⟨"✅ Пройти регистрацию", .webAppA u⟩]
      | none => []
    let base :=
      pyOrStr resp.message
        "Для продолжения, пожалуйста, пройдите быструю регистрацию."
    match build_sponsor_prompt resp builder (some base) with
    | some p => some p
    | none =>
        match reg with
        | none => none
        | some _ =>
            some (base, builder ++ [⟨"Продолжить", .cbA "subgram-op"⟩])
  else none

/-- Side effects the middleware performs, in order. -/
inductive Effect
  | oracleCall (userId : Int) (chatId : Int)
  | sendMessage (chatId : Int) (text : String) (markup : Option (List Button))
  | ackCallback
  | deleteMessage
  | triggerStartFlow
  | rewardNotify (referrerId : Int)
deriving DecidableEq, Repr

/-- Whether the wrapped handler ends up being awaited. -/
inductive Decision
  | handlerRun
  | blocked
deriving DecidableEq, Repr

/-- The observable outcome of one middleware invocation. -/
structure MWResult where
  store : Store
  effects : List Effect
  decision : Decision
deriving DecidableEq, Repr

/-- `_acknowledge_callback` followed by `_cleanup_callback_message` (the
message is deleted only when the callback carries one). -/
def ackCleanupEffects : TgEvent → List Effect
  | .callback _ (some _) => [.ackCallback, .deleteMessage]
  | _ => [.ackCallback]

/-- `_send_blocking_message`: acknowledge and clean up a SubGram callback,
then send the text; it reports success unconditionally. -/
def sendBlockingEffects (ev : TgEvent) (chatId : Int) (text : String)
    (markup : Option (List Button)) : List Effect :=
  (if is_subgram_callback ev then ackCleanupEffects ev else [])
    ++ [.sendMessage chatId text markup]

/-- `_maybe_call_subgram_handler`: the wrapped handler still runs for a
SubGram callback, everything else is swallowed. -/
def maybeSubgramDecision (ev : TgEvent) : Decision :=
  if is_subgram_callback ev then .handlerRun else .blocked

/-- `_handle_blocking_status`: send the computed prompt, or a generic
blocking text when none; the returned flag comes from
`_send_blocking_message` and is therefore always true. -/
def handle_blocking_status (ev : TgEvent) (chatId : Int)
    (resp : OracleResponse) (status : Option String) : List Effect × Bool :=
  match build_blocking_prompt resp status with
  | none =>
      (sendBlockingEffects ev chatId
        "Выполните обязательные задания, чтобы продолжить пользоваться ботом."
        none, true)
  | some p => (sendBlockingEffects ev chatId p.1 (some p.2), true)

/-- `_trigger_start`: run the start flow except for a "/start" message, a
callback without an attached message, or a non-message non-callback event. -/
def triggerStartEffects : TgEvent → List Effect
  | .message _ txt =>
      if pyStartsWith (txt.getD "") "/start" then [] else [.triggerStartFlow]
  | .callback _ (some _) => [.triggerStartFlow]
  | _ => []

/-- The nondeterministic environment of one invocation: the oracle's reply
(none is a timeout or transport failure), the Flyer fallback verdict (none
covers "no client configured" and client errors, both treated as allowed),
and whether the balance write succeeds. -/
structure Env where
  oracle : Option OracleResponse
  flyerCheck : Option Bool
  balanceWriteOk : Bool
deriving Repr

/-- `_reward_referrer_for_fake_warning` with the default reward of 1: the
referrer notification is attempted only after the balance write succeeded. -/
def reward_referrer_for_fake_warning (s : Store) (env : Env) (referrerId : Int) :
    Store × List Effect :=
  if env.balanceWriteOk then
    (update_balance s referrerId 1, [.rewardNotify referrerId])
  else (s, [])

/-- `_handle_flyer_fallback`: a missing client or a client error fail open;
only an explicit rejection blocks, with the anti-fraud message. -/
def handle_flyer_fallback (env : Env) (ev : TgEvent) (chatId : Int) :
    Bool × List Effect :=
  match env.flyerCheck with
  | none => (true, [])
  | some true => (true, [])
  | some false =>
      (false,
        sendBlockingEffects ev chatId
          ("К сожалению мы не можем удостовериться, что ваш аккаунт не фейковый. "
            ++ "Попробуйте позже или выполните задания, которые пришли вам отдельно.")
          none)

/-- Python truthiness of an optional integer (None and 0 are falsy). -/
def intTruthy (x : Option Int) : Bool :=
  match x with
  | some r => r != 0
  | none => false

/-- `effective_referrer = referred_by or (user_record.referred_by if ...)`:
Python `or`, so a falsy extracted referrer falls back to the stored one. -/
def effectiveReferrer (rb : Option Int) (userRec : Option UserRecord) :
    Option Int :=
  if intTruthy rb then rb else userRec.bind (fun r => r.referred_by)

/-- The retry-later text sent when the oracle gives no response. -/
def retryLaterText : String :=
  "Не удалось проверить выполнение заданий. Повторите попытку позже."

/-- The `code == 404` stage of the middleware: reward a truthy effective
referrer, then run the Flyer fallback; returns the store, the effects, the
`flyer_allowed` flag and whether the invocation stops here. -/
def stage404 (s1 : Store) (env : Env) (ev : TgEvent) (chatId : Int)
    (effRef : Option Int) (code404 : Bool) :
    Store × List Effect × Bool × Bool :=
  if code404 then
    let r1 :=
      if intTruthy effRef then
        reward_referrer_for_fake_warning s1 env (effRef.getD 0)
      else (s1, [])
    let r2 := handle_flyer_fallback env ev chatId
    (r1.1, r1.2 ++ r2.2, r2.1, !r2.1)
  else (s1, [], true, false)

/-- The tail of `__call__` once a non-blocking, non-error status is reached:
set the verified flag, trigger the start flow for a first verification when
the fallback allowed it, and acknowledge a SubGram callback. -/
def finishVerify (s : Store) (effs : List Effect) (uid : Int) (ev : TgEvent)
    (wasVerified : Bool) (flyerAllowed : Bool) : MWResult :=
  let s2 := set_flyer_verified s uid true
  let effs1 :=
    effs ++ (if !wasVerified && flyerAllowed then triggerStartEffects ev else [])
      ++ (if is_subgram_callback ev then ackCleanupEffects ev else [])
  ⟨s2, effs1, .handlerRun⟩

/-- `SubgramCheckMiddleware.__call__` (middlewares.py lines 63-220): the
language gate runs before the verified fast path; a verified user skips the
oracle; otherwise the user context is upserted, the oracle consulted, the
`code 404` anti-fraud branch handled, and the verdict dispatched. The
blocking-status handler always reports handled, so its fail-open tail is
unreachable. -/
def subgramCheckCall (s : Store) (u : TgUser) (ev : TgEvent) (env : Env) :
    MWResult :=
  match resolve_chat_id ev with
  | none => ⟨s, [], .handlerRun⟩
  | some chatId =>
    let userRec := get_user s u.id
    let wasVerified := wasVerifiedIn s u.id
    match get_language_block_message u.language_code with
    | some msg =>
        ⟨s, sendBlockingEffects ev chatId msg none, maybeSubgramDecision ev⟩
    | none =>
      if wasVerified && !is_subgram_callback ev then ⟨s, [], .handlerRun⟩
      else
        let referred_by := extract_referred_by ev u.id
        if wasVerified && is_subgram_callback ev then
          ⟨s, ackCleanupEffects ev, .handlerRun⟩
        else
          let s1 := remember_user_context s u.id u.username referred_by userRec
          let oracleEffs : List Effect := [.oracleCall u.id chatId]
          match env.oracle with
          | none =>
              ⟨s1, oracleEffs ++ sendBlockingEffects ev chatId retryLaterText none,
                maybeSubgramDecision ev⟩
          | some resp =>
            let status := resp.status
            let effRef := effectiveReferrer referred_by userRec
            let st4 := stage404 s1 env ev chatId effRef (resp.code == some 404)
            let s2 := st4.1
            let effs404 := st4.2.1
            let flyerAllowed := st4.2.2.1
            if st4.2.2.2 then
              ⟨s2, oracleEffs ++ effs404, maybeSubgramDecision ev⟩
            else
              if (match status with
                  | some st => ["warning", "gender", "age", "register"].contains st
                  | none => false) then
                let hb := handle_blocking_status ev chatId resp status
                if hb.2 then ⟨s2, oracleEffs ++ effs404 ++ hb.1, .blocked⟩
                else
                  finishVerify s2 (oracleEffs ++ effs404 ++ hb.1) u.id ev
                    wasVerified flyerAllowed
              else if status = some "error" then
                ⟨s2,
                  oracleEffs ++ effs404 ++ sendBlockingEffects ev chatId
                    (pyOrStr resp.message
                      "Ошибка при проверке заданий. Попробуйте еще раз позже.")
                    none,
                  maybeSubgramDecision ev⟩
              else
                finishVerify s2 (oracleEffs ++ effs404) u.id ev
                  wasVerified flyerAllowed

/-- One gate-visible event: either webhook variant processing one batch
entry, or one inline middleware invocation. -/
inductive GateStep
  | webhookFirst (av : Option Bool) (ev : WebhookEvent)
  | webhookSecond (ev : WebhookEvent)
  | inline (u : TgUser) (ev : TgEvent) (env : Env)

/-- The store after one gate step (for the first webhook variant, the store
as left even when the unbound-variable error aborts the request). -/
def applyGateStep (s : Store) : GateStep → Store
  | .webhookFirst av ev => (subgram_webhook_first_event s av ev).store
  | .webhookSecond ev => (subgram_webhook_second_event s ev).1
  | .inline u ev env => (subgramCheckCall s u ev env).store

/-- Write-once discipline of `referred_by` for one user across one store
transition: a stored referrer survives, and a referrer distinct from the
user's own id stays distinct. -/
def RefPreserved (s t : Store) (uid : Int) : Prop :=
  (∀ r, referredByIn s uid = some r → referredByIn t uid = some r)
  ∧ (referredByIn s uid ≠ some uid → referredByIn t uid ≠ some uid)

/-! ## Store lemmas -/

theorem get_user_mem_id (s : Store) (uid : Int) (u : UserRecord)
    (h : get_user s uid = some u) : u.telegram_id = uid := by
  have h2 := List.find?_some h
  simpa using h2

theorem get_user_updateUser (s : Store) (id uid : Int)
    (f : UserRecord → UserRecord)
    (hf : ∀ u, (f u).telegram_id = u.telegram_id) :
    get_user (updateUser s id f) uid
      = (get_user s uid).map (fun u => if u.telegram_id = id then f u else u) := by
  unfold get_user updateUser
  rw [List.find?_map]
  have hp : ((fun u => decide (u.telegram_id = uid))
        ∘ fun u => if u.telegram_id = id then f u else u)
      = (fun u => decide (u.telegram_id = uid)) := by
    funext u
    by_cases h : u.telegram_id = id <;> simp [Function.comp, h, hf]
  rw [hp]

theorem wasVerifiedIn_updateUser (s : Store) (id uid : Int)
    (f : UserRecord → UserRecord)
    (hf : ∀ u, (f u).telegram_id = u.telegram_id)
    (hv : ∀ u, (f u).flyer_verified = u.flyer_verified) :
    wasVerifiedIn (updateUser s id f) uid = wasVerifiedIn s uid := by
  unfold wasVerifiedIn
  rw [get_user_updateUser s id uid f hf]
  cases get_user s uid with
  | none => rfl
  | some u => by_cases h : u.telegram_id = id <;> simp [h, hv]

theorem referredByIn_updateUser (s : Store) (id uid : Int)
    (f : UserRecord → UserRecord)
    (hf : ∀ u, (f u).telegram_id = u.telegram_id)
    (hv : ∀ u, (f u).referred_by = u.referred_by) :
    referredByIn (updateUser s id f) uid = referredByIn s uid := by
  unfold referredByIn
  rw [get_user_updateUser s id uid f hf]
  cases get_user s uid with
  | none => rfl
  | some u => by_cases h : u.telegram_id = id <;> simp [h, hv]

theorem balanceOf_updateUser (s : Store) (id uid : Int)
    (f : UserRecord → UserRecord)
    (hf : ∀ u, (f u).telegram_id = u.telegram_id)
    (hv : ∀ u, (f u).balance = u.balance) :
    balanceOf (updateUser s id f) uid = balanceOf s uid := by
  unfold balanceOf
  rw [get_user_updateUser s id uid f hf]
  cases get_user s uid with
  | none => rfl
  | some u => by_cases h : u.telegram_id = id <;> simp [h, hv]

theorem referredByIn_update_username (s : Store) (id : Int) (un : String)
    (uid : Int) :
    referredByIn (update_username s id un) uid = referredByIn s uid :=
  referredByIn_updateUser s id uid _ (fun _ => rfl) (fun _ => rfl)

theorem referredByIn_set_flyer (s : Store) (id : Int) (b : Bool) (uid : Int) :
    referredByIn (set_flyer_verified s id b) uid = referredByIn s uid :=
  referredByIn_updateUser s id uid _ (fun _ => rfl) (fun _ => rfl)

theorem referredByIn_update_balance (s : Store) (id delta uid : Int) :
    referredByIn (update_balance s id delta) uid = referredByIn s uid :=
  referredByIn_updateUser s id uid _ (fun _ => rfl) (fun _ => rfl)

theorem wasVerifiedIn_update_username (s : Store) (id : Int) (un : String)
    (uid : Int) :
    wasVerifiedIn (update_username s id un) uid = wasVerifiedIn s uid :=
  wasVerifiedIn_updateUser s id uid _ (fun _ => rfl) (fun _ => rfl)

theorem wasVerifiedIn_assign (s : Store) (id rv uid : Int) :
    wasVerifiedIn (assign_referrer s id rv) uid = wasVerifiedIn s uid :=
  wasVerifiedIn_updateUser s id uid _ (fun _ => rfl) (fun _ => rfl)

theorem wasVerifiedIn_update_balance (s : Store) (id delta uid : Int) :
    wasVerifiedIn (update_balance s id delta) uid = wasVerifiedIn s uid :=
  wasVerifiedIn_updateUser s id uid _ (fun _ => rfl) (fun _ => rfl)

theorem balanceOf_update_username (s : Store) (id : Int) (un : String)
    (uid : Int) :
    balanceOf (update_username s id un) uid = balanceOf s uid :=
  balanceOf_updateUser s id uid _ (fun _ => rfl) (fun _ => rfl)

theorem balanceOf_assign (s : Store) (id rv uid : Int) :
    balanceOf (assign_referrer s id rv) uid = balanceOf s uid :=
  balanceOf_updateUser s id uid _ (fun _ => rfl) (fun _ => rfl)

theorem balanceOf_set_flyer (s : Store) (id : Int) (b : Bool) (uid : Int) :
    balanceOf (set_flyer_verified s id b) uid = balanceOf s uid :=
  balanceOf_updateUser s id uid _ (fun _ => rfl) (fun _ => rfl)

theorem get_user_append_one (s : Store) (uid : Int) (r : UserRecord) :
    get_user (s ++ [r]) uid
      = (get_user s uid).or (if r.telegram_id = uid then some r else none) := by
  unfold get_user
  rw [List.find?_append]
  congr 1
  by_cases h : r.telegram_id = uid <;> simp [List.find?, h]

theorem referredByIn_assign (s : Store) (id rv uid : Int) :
    referredByIn (assign_referrer s id rv) uid
      = if uid = id ∧ (get_user s uid).isSome then some rv
        else referredByIn s uid := by
  unfold referredByIn assign_referrer
  rw [get_user_updateUser s id uid
    (fun u => { u with referred_by := some rv }) (fun _ => rfl)]
  cases hu : get_user s uid with
  | none => simp
  | some u =>
      have hid := get_user_mem_id s uid u hu
      by_cases h : uid = id
      · simp [hid, h]
      · simp [hid, h]

theorem wasVerifiedIn_create (s : Store) (id bal : Int) (ref : Option Int)
    (un : Option String) (uid : Int) :
    wasVerifiedIn (create_user s id bal ref un) uid = wasVerifiedIn s uid := by
  unfold create_user
  by_cases hp : (get_user s id).isSome
  · simp [hp]
  · rw [if_neg hp]
    unfold wasVerifiedIn
    rw [get_user_append_one]
    cases hu : get_user s uid with
    | some u => simp [Option.or]
    | none =>
        by_cases h : id = uid <;> simp [Option.or, h]

theorem balanceOf_create_ne (s : Store) (id bal : Int) (ref : Option Int)
    (un : Option String) (uid : Int) (h : uid ≠ id) :
    balanceOf (create_user s id bal ref un) uid = balanceOf s uid := by
  unfold create_user
  by_cases hp : (get_user s id).isSome
  · simp [hp]
  · rw [if_neg hp]
    unfold balanceOf
    rw [get_user_append_one]
    cases hu : get_user s uid with
    | some u => simp [Option.or]
    | none =>
        have h2 : ¬ id = uid := fun hh => h hh.symm
        simp [Option.or, h2]

theorem referredByIn_create_none (s : Store) (id bal : Int)
    (un : Option String) (uid : Int) :
    referredByIn (create_user s id bal none un) uid = referredByIn s uid := by
  unfold create_user
  by_cases hp : (get_user s id).isSome
  · simp [hp]
  · rw [if_neg hp]
    unfold referredByIn
    rw [get_user_append_one]
    cases hu : get_user s uid with
    | some u => simp [Option.or]
    | none => by_cases h : id = uid <;> simp [Option.or, h]

/-! ## Write-once lemmas for referred_by -/

theorem refp_refl (s : Store) (uid : Int) : RefPreserved s s uid :=
  ⟨fun _ h => h, fun h => h⟩

theorem refp_trans {s t v : Store} {uid : Int} (h1 : RefPreserved s t uid)
    (h2 : RefPreserved t v uid) : RefPreserved s v uid :=
  ⟨fun r hr => h2.1 r (h1.1 r hr), fun hne => h2.2 (h1.2 hne)⟩

theorem refp_of_eq {s t : Store} {uid : Int}
    (h : referredByIn t uid = referredByIn s uid) : RefPreserved s t uid :=
  ⟨fun r hr => h.trans hr, fun hne => h ▸ hne⟩

theorem refp_create (s : Store) (id bal : Int) (ref : Option Int)
    (un : Option String) (uid : Int) (href : ref ≠ some id) :
    RefPreserved s (create_user s id bal ref un) uid := by
  unfold create_user
  by_cases hp : (get_user s id).isSome
  · rw [if_pos hp]; exact refp_refl s uid
  · rw [if_neg hp]
    constructor
    · intro r hr
      unfold referredByIn at hr ⊢
      rw [get_user_append_one]
      cases hu : get_user s uid with
      | none => rw [hu] at hr; simp at hr
      | some u => rw [hu] at hr; simpa [Option.or] using hr
    · intro hne
      unfold referredByIn at hne ⊢
      rw [get_user_append_one]
      cases hu : get_user s uid with
      | none =>
          by_cases h : id = uid
          · have href2 : ref ≠ some uid := h ▸ href
            simpa [Option.or, h] using href2
          · simp [Option.or, h]
      | some u => rw [hu] at hne; simpa [Option.or] using hne

theorem referredByIn_ensure (s : Store) (tid : Int) (un : Option String)
    (uid : Int) :
    referredByIn ((ensure_user_record s tid un).1) uid = referredByIn s uid := by
  unfold ensure_user_record
  cases h : get_user s tid with
  | none => simpa using referredByIn_create_none s tid 0 un uid
  | some u =>
      cases strTruthy un with
      | none => rfl
      | some nm =>
          by_cases hn : u.username ≠ some nm
          · simpa [hn] using referredByIn_update_username s tid nm uid
          · simp [hn]

theorem wasVerifiedIn_ensure (s : Store) (tid : Int) (un : Option String)
    (uid : Int) :
    wasVerifiedIn ((ensure_user_record s tid un).1) uid = wasVerifiedIn s uid := by
  unfold ensure_user_record
  cases h : get_user s tid with
  | none => simpa using wasVerifiedIn_create s tid 0 none un uid
  | some u =>
      cases strTruthy un with
      | none => rfl
      | some nm =>
          by_cases hn : u.username ≠ some nm
          · simpa [hn] using wasVerifiedIn_update_username s tid nm uid
          · simp [hn]

theorem refp_remember (s : Store) (tid : Int) (un : Option String)
    (rb : Option Int) (uid : Int) (hrb : rb ≠ some tid) :
    RefPreserved s (remember_user_context s tid un rb (get_user s tid)) uid := by
  unfold remember_user_context
  cases h : get_user s tid with
  | none => exact refp_create s tid 0 rb un uid hrb
  | some u =>
      dsimp only
      generalize hS : (match un with
          | some nm => if some nm ≠ u.username then update_username s tid nm else s
          | none => s : Store) = s1
      have hkey : ∀ i, referredByIn s1 i = referredByIn s i := by
        intro i
        rw [← hS]
        cases un with
        | none => rfl
        | some nm =>
            by_cases hn : some nm ≠ u.username
            · simp only [if_pos hn]
              exact referredByIn_update_username s tid nm i
            · simp only [if_neg hn]
      have hnone0 : u.referred_by = none → referredByIn s tid = none := by
        intro hub
        unfold referredByIn
        rw [h]
        simpa using hub
      cases rb with
      | none => exact refp_of_eq (hkey uid)
      | some rv =>
          dsimp only
          by_cases hg : rv ≠ tid ∧ u.referred_by = none
          · rw [if_pos hg]
            constructor
            · intro r hr
              rw [referredByIn_assign]
              by_cases he : uid = tid
              · exfalso
                rw [he, hnone0 hg.2] at hr
                exact Option.noConfusion hr
              · simp only [he, false_and, if_false]
                rw [hkey uid]
                exact hr
            · intro hne
              rw [referredByIn_assign]
              by_cases he : uid = tid
              · subst he
                by_cases hp : (get_user s1 uid).isSome
                · rw [if_pos ⟨rfl, hp⟩]
                  intro hc
                  have hru : rv = uid := by simpa using hc
                  exact hg.1 hru
                · have hcond : ¬ (uid = uid ∧ (get_user s1 uid).isSome = true) :=
                    fun hx => hp hx.2
                  rw [if_neg hcond, hkey uid]
                  exact hne
              · have hcond : ¬ (uid = tid ∧ (get_user s1 uid).isSome = true) :=
                  fun hx => he hx.1
                rw [if_neg hcond, hkey uid]
                exact hne
          · rw [if_neg hg]
            exact refp_of_eq (hkey uid)

theorem wasVerifiedIn_remember (s : Store) (tid : Int) (un : Option String)
    (rb : Option Int) (rec0 : Option UserRecord) (uid : Int) :
    wasVerifiedIn (remember_user_context s tid un rb rec0) uid
      = wasVerifiedIn s uid := by
  unfold remember_user_context
  cases rec0 with
  | none => exact wasVerifiedIn_create s tid 0 rb un uid
  | some u =>
      dsimp only
      generalize hS : (match un with
          | some nm => if some nm ≠ u.username then update_username s tid nm else s
          | none => s : Store) = s1
      have hkey : wasVerifiedIn s1 uid = wasVerifiedIn s uid := by
        rw [← hS]
        cases un with
        | none => rfl
        | some nm =>
            by_cases hn : some nm ≠ u.username
            · simp only [if_pos hn]
              exact wasVerifiedIn_update_username s tid nm uid
            · simp only [if_neg hn]
      cases rb with
      | none => exact hkey
      | some rv =>
          dsimp only
          by_cases hg : rv ≠ tid ∧ u.referred_by = none
          · rw [if_pos hg, wasVerifiedIn_assign, hkey]
          · rw [if_neg hg, hkey]

theorem balanceOf_remember (s : Store) (tid : Int) (un : Option String)
    (rb : Option Int) (rec0 : Option UserRecord) (uid : Int) (hne : uid ≠ tid) :
    balanceOf (remember_user_context s tid un rb rec0) uid = balanceOf s uid := by
  unfold remember_user_context
  cases rec0 with
  | none => exact balanceOf_create_ne s tid 0 rb un uid hne
  | some u =>
      dsimp only
      generalize hS : (match un with
          | some nm => if some nm ≠ u.username then update_username s tid nm else s
          | none => s : Store) = s1
      have hkey : balanceOf s1 uid = balanceOf s uid := by
        rw [← hS]
        cases un with
        | none => rfl
        | some nm =>
            by_cases hn : some nm ≠ u.username
            · simp only [if_pos hn]
              exact balanceOf_update_username s tid nm uid
            · simp only [if_neg hn]
      cases rb with
      | none => exact hkey
      | some rv =>
          dsimp only
          by_cases hg : rv ≠ tid ∧ u.referred_by = none
          · rw [if_pos hg, balanceOf_assign, hkey]
          · rw [if_neg hg, hkey]

theorem extract_referred_by_ne (ev : TgEvent) (tid : Int) :
    extract_referred_by ev tid ≠ some tid := by
  unfold extract_referred_by
  cases ev with
  | message c t =>
      dsimp only
      split
      · exact Option.noConfusion
      · split
        · exact Option.noConfusion
        · split
          · exact Option.noConfusion
          · split
            · exact Option.noConfusion
            · split
              · exact Option.noConfusion
              · rename_i harg
                intro hc
                exact harg (by simpa using hc)
  | callback d m => exact Option.noConfusion
  | other => exact Option.noConfusion

theorem referredByIn_stage404 (s : Store) (env : Env) (ev : TgEvent) (c : Int)
    (er : Option Int) (c4 : Bool) (uid : Int) :
    referredByIn ((stage404 s env ev c er c4).1) uid = referredByIn s uid := by
  unfold stage404 reward_referrer_for_fake_warning
  repeat' split
  all_goals simp [referredByIn_update_balance]

theorem wasVerifiedIn_stage404 (s : Store) (env : Env) (ev : TgEvent) (c : Int)
    (er : Option Int) (c4 : Bool) (uid : Int) :
    wasVerifiedIn ((stage404 s env ev c er c4).1) uid = wasVerifiedIn s uid := by
  unfold stage404 reward_referrer_for_fake_warning
  repeat' split
  all_goals simp [wasVerifiedIn_update_balance]

theorem rewardNotify_not_mem_ackCleanup (ev : TgEvent) (r : Int) :
    Effect.rewardNotify r ∉ ackCleanupEffects ev := by
  unfold ackCleanupEffects
  split <;> simp

theorem rewardNotify_not_mem_sendBlocking (ev : TgEvent) (c : Int) (t : String)
    (m : Option (List Button)) (r : Int) :
    Effect.rewardNotify r ∉ sendBlockingEffects ev c t m := by
  unfold sendBlockingEffects
  intro hmem
  rcases List.mem_append.mp hmem with h | h
  · split at h
    · exact rewardNotify_not_mem_ackCleanup ev r h
    · simp at h
  · simp at h

theorem rewardNotify_not_mem_triggerStart (ev : TgEvent) (r : Int) :
    Effect.rewardNotify r ∉ triggerStartEffects ev := by
  unfold triggerStartEffects
  split
  · split <;> simp
  · simp
  · simp

theorem rewardNotify_not_mem_handleBlocking (ev : TgEvent) (c : Int)
    (resp : OracleResponse) (st : Option String) (r : Int) :
    Effect.rewardNotify r ∉ (handle_blocking_status ev c resp st).1 := by
  unfold handle_blocking_status
  split
  · exact rewardNotify_not_mem_sendBlocking ev c _ _ r
  · exact rewardNotify_not_mem_sendBlocking ev c _ _ r

theorem oracleCall_not_mem_ackCleanup (ev : TgEvent) (a b : Int) :
    Effect.oracleCall a b ∉ ackCleanupEffects ev := by
  unfold ackCleanupEffects
  split <;> simp

theorem oracleCall_not_mem_sendBlocking (ev : TgEvent) (c : Int) (t : String)
    (m : Option (List Button)) (a b : Int) :
    Effect.oracleCall a b ∉ sendBlockingEffects ev c t m := by
  unfold sendBlockingEffects
  intro hmem
  rcases List.mem_append.mp hmem with h | h
  · split at h
    · exact oracleCall_not_mem_ackCleanup ev a b h
    · simp at h
  · simp at h

theorem referredByIn_webhook_second (s : Store) (ev : WebhookEvent) (uid : Int) :
    referredByIn ((subgram_webhook_second_event s ev).1) uid
      = referredByIn s uid := by
  unfold subgram_webhook_second_event
  repeat' split
  all_goals simp [referredByIn_set_flyer, referredByIn_ensure]

theorem referredByIn_webhook_first (s : Store) (av : Option Bool)
    (ev : WebhookEvent) (uid : Int) :
    referredByIn ((subgram_webhook_first_event s av ev).store) uid
      = referredByIn s uid := by
  unfold subgram_webhook_first_event
  dsimp only
  repeat' split
  all_goals simp [referredByIn_set_flyer, referredByIn_ensure]



theorem refp_subgramCheckCall (s : Store) (u : TgUser) (ev : TgEvent)
    (env : Env) (uid : Int) :
    RefPreserved s (subgramCheckCall s u ev env).store uid := by
  unfold subgramCheckCall finishVerify
  dsimp only
  repeat' split
  all_goals dsimp only
  all_goals
    first
      | exact refp_refl s uid
      | exact refp_remember s u.id u.username (extract_referred_by ev u.id) uid
          (extract_referred_by_ne ev u.id)
      | exact refp_trans
          (refp_remember s u.id u.username (extract_referred_by ev u.id) uid
            (extract_referred_by_ne ev u.id))
          (refp_of_eq (referredByIn_stage404 _ _ _ _ _ _ uid))
      | exact refp_trans
          (refp_trans
            (refp_remember s u.id u.username (extract_referred_by ev u.id) uid
              (extract_referred_by_ne ev u.id))
            (refp_of_eq (referredByIn_stage404 _ _ _ _ _ _ uid)))
          (refp_of_eq (referredByIn_set_flyer _ _ _ uid))

theorem balanceOf_update_balance_self (s : Store) (id delta : Int) :
    balanceOf (update_balance s id delta) id
      = (balanceOf s id).map (fun b => b + delta) := by
  unfold balanceOf update_balance
  rw [get_user_updateUser s id id (fun u => { u with balance := u.balance + delta })
    (fun _ => rfl)]
  cases hu : get_user s id with
  | none => rfl
  | some u =>
      have hid := get_user_mem_id s id u hu
      simp [hid]

/-! ## Claims -/

/-- C1: the claim says a subscribed or notgetted webhook event sets
verified true and triggers the start flow exactly once across duplicate
deliveries. The first (live) route variant never writes the verified flag,
so each duplicate delivery of the same subscribed event triggers the start
flow again; the second variant behaves as claimed at the same input. -/
theorem claim_c1_first_route_duplicate_subscribed :
    (subgram_webhook_first [] none
        [⟨1, some "subscribed", none⟩, ⟨1, some "subscribed", none⟩]).effects
      = [.triggerStartFlow 1, .triggerStartFlow 1]
    ∧ wasVerifiedIn (subgram_webhook_first [] none
        [⟨1, some "subscribed", none⟩, ⟨1, some "subscribed", none⟩]).store 1
      = false
    ∧ (subgram_webhook_second []
        [⟨1, some "subscribed", none⟩, ⟨1, some "subscribed", none⟩]).2
      = [.triggerStartFlow 1]
    ∧ wasVerifiedIn (subgram_webhook_second []
        [⟨1, some "subscribed", none⟩, ⟨1, some "subscribed", none⟩]).1 1
      = true := by
  decide

/-- C2: in the first route variant a batch whose first event has status
"unsubscribed" reads `already_verified` before any assignment, so the
request aborts with an unbound-variable error and the event is not
processed. -/
theorem claim_c2_unbound_already_verified_read :
    (subgram_webhook_first [] none [⟨7, some "unsubscribed", none⟩]).errored
      = true
    ∧ (subgram_webhook_first [] none [⟨7, some "unsubscribed", none⟩]).effects
      = [] := by
  decide

/-- C3: the claim says an unsubscribed event for a previously verified user
clears the flag and notifies exactly once. In the first (live) route
variant the very first such delivery aborts on the unbound
`already_verified` read: nothing is notified and the flag stays true; the
second variant behaves as claimed at the same input. -/
theorem claim_c3_first_route_unsubscribed_aborts :
    (subgram_webhook_first [⟨42, 0, none, none, true⟩] none
        [⟨42, some "unsubscribed", none⟩]).errored = true
    ∧ (subgram_webhook_first [⟨42, 0, none, none, true⟩] none
        [⟨42, some "unsubscribed", none⟩]).effects = []
    ∧ wasVerifiedIn (subgram_webhook_first [⟨42, 0, none, none, true⟩] none
        [⟨42, some "unsubscribed", none⟩]).store 42 = true
    ∧ (subgram_webhook_second [⟨42, 0, none, none, true⟩]
        [⟨42, some "unsubscribed", none⟩]).2
      = [.handleUnsubscription 42, .notifyUnsubscribed 42]
    ∧ wasVerifiedIn (subgram_webhook_second [⟨42, 0, none, none, true⟩]
        [⟨42, some "unsubscribed", none⟩]).1 42 = false := by
  decide

/-- C4 counterexample: a verified user whose language code is "fa" sends a
plain message; the language gate fires before the verified fast path, so
the decision is blocked rather than Continue, refuting the claim as
stated. -/
theorem claim_c4_counterexample :
    wasVerifiedIn [⟨3, 0, none, none, true⟩] 3 = true
    ∧ is_subgram_callback (TgEvent.message 3 (some "hi")) = false
    ∧ (subgramCheckCall [⟨3, 0, none, none, true⟩] ⟨3, none, some "fa"⟩
        (.message 3 (some "hi")) ⟨none, none, true⟩).decision
      = .blocked := by
  decide

/-- C4 amended: for a verified user whose language code does not match the
language block list, a non-gate-callback inline event runs the handler with
no oracle call, no effects and no store mutation. -/
theorem claim_c4_amended (s : Store) (u : TgUser) (ev : TgEvent) (env : Env)
    (hv : wasVerifiedIn s u.id = true)
    (hcb : is_subgram_callback ev = false)
    (hlang : get_language_block_message u.language_code = none) :
    subgramCheckCall s u ev env = ⟨s, [], .handlerRun⟩ := by
  unfold subgramCheckCall
  cases hc : resolve_chat_id ev with
  | none => rfl
  | some c =>
      dsimp only
      rw [hlang]
      dsimp only
      rw [hv, hcb]
      simp

/-- C4 amended witness at a concrete verified user. -/
theorem claim_c4_amended_witness :
    subgramCheckCall [⟨8, 0, none, none, true⟩] ⟨8, none, none⟩
        (.message 8 (some "hi")) ⟨none, none, true⟩
      = ⟨[⟨8, 0, none, none, true⟩], [], .handlerRun⟩ :=
  claim_c4_amended _ _ _ _ (by decide) (by decide) (by decide)

/-- C5 counterexample: an unverified user gets a Warning verdict whose
sponsor list is empty, so the Prompt Policy yields no prompt; the claim
says the gate fails open (not blocked, verified set true), but the code
sends a generic blocking text, blocks, and leaves verified false. -/
theorem claim_c5_counterexample :
    build_blocking_prompt ⟨some "warning", none, none, some ⟨some [], none⟩⟩
        (some "warning") = none
    ∧ (subgramCheckCall [⟨5, 0, none, none, false⟩] ⟨5, none, none⟩
        (.message 5 (some "hi"))
        ⟨some ⟨some "warning", none, none, some ⟨some [], none⟩⟩, none, true⟩).decision
      = .blocked
    ∧ wasVerifiedIn (subgramCheckCall [⟨5, 0, none, none, false⟩] ⟨5, none, none⟩
        (.message 5 (some "hi"))
        ⟨some ⟨some "warning", none, none, some ⟨some [], none⟩⟩, none, true⟩).store 5
      = false := by
  decide

/-- C5 amended: on a blocking verdict (not carrying code 404) whose prompt
policy yields nothing, the gate does not fail open: it sends the generic
blocking text, blocks, and writes no verified flag — the `status = "ok"`
fail-open assignment is unreachable because the blocking handler always
reports handled. -/
theorem claim_c5_amended (s : Store) (u : TgUser) (ev : TgEvent) (env : Env)
    (c : Int) (resp : OracleResponse) (st : String)
    (hc : resolve_chat_id ev = some c)
    (hlang : get_language_block_message u.language_code = none)
    (hv : wasVerifiedIn s u.id = false)
    (ho : env.oracle = some resp)
    (h404 : resp.code ≠ some 404)
    (hst : resp.status = some st)
    (hbl : ["warning", "gender", "age", "register"].contains st = true)
    (hpr : build_blocking_prompt resp (some st) = none) :
    (subgramCheckCall s u ev env).decision = .blocked
    ∧ (subgramCheckCall s u ev env).effects
      = Effect.oracleCall u.id c :: sendBlockingEffects ev c
          "Выполните обязательные задания, чтобы продолжить пользоваться ботом."
          none
    ∧ (∀ i, wasVerifiedIn (subgramCheckCall s u ev env).store i
        = wasVerifiedIn s i) := by
  have hbeq : (resp.code == some 404) = false := by
    simp [h404]
  simp only [subgramCheckCall, hc, hlang, hv, ho, hbeq, stage404,
    handle_blocking_status, hst, hbl, hpr, Bool.false_and, Bool.not_false,
    Bool.false_eq_true, if_false, if_true, ite_true, ite_false]
  refine ⟨by trivial, by trivial, ?_⟩
  intro i
  exact wasVerifiedIn_remember s u.id u.username (extract_referred_by ev u.id)
    (get_user s u.id) i

/-- C5 amended witness at the concrete empty-sponsor Warning input. -/
theorem claim_c5_amended_witness :
    (subgramCheckCall [⟨6, 0, none, none, false⟩] ⟨6, none, none⟩
        (.message 6 (some "hi"))
        ⟨some ⟨some "warning", none, none, some ⟨some [], none⟩⟩, none, true⟩).decision
      = .blocked
    ∧ (subgramCheckCall [⟨6, 0, none, none, false⟩] ⟨6, none, none⟩
        (.message 6 (some "hi"))
        ⟨some ⟨some "warning", none, none, some ⟨some [], none⟩⟩, none, true⟩).effects
      = Effect.oracleCall 6 6 :: sendBlockingEffects (.message 6 (some "hi")) 6
          "Выполните обязательные задания, чтобы продолжить пользоваться ботом."
          none
    ∧ (∀ i, wasVerifiedIn (subgramCheckCall [⟨6, 0, none, none, false⟩]
        ⟨6, none, none⟩ (.message 6 (some "hi"))
        ⟨some ⟨some "warning", none, none, some ⟨some [], none⟩⟩, none, true⟩).store i
      = wasVerifiedIn [⟨6, 0, none, none, false⟩] i) :=
  claim_c5_amended [⟨6, 0, none, none, false⟩] ⟨6, none, none⟩
    (.message 6 (some "hi"))
    ⟨some ⟨some "warning", none, none, some ⟨some [], none⟩⟩, none, true⟩ 6
    ⟨some "warning", none, none, some ⟨some [], none⟩⟩ "warning"
    (by decide) (by decide) (by decide) (by decide) (by decide) (by decide)
    (by decide) (by decide)

/-- C6: across any single gate step — either webhook route variant or one
inline middleware invocation — a stored referrer is never overwritten, and
a referrer distinct from the user's own id can never become the user's own
id (no path ever assigns `referred_by = id`). -/
theorem claim_c6_referrer_write_once (s : Store) (st : GateStep) (uid : Int) :
    RefPreserved s (applyGateStep s st) uid := by
  cases st with
  | webhookFirst av ev =>
      exact refp_of_eq (referredByIn_webhook_first s av ev uid)
  | webhookSecond ev =>
      exact refp_of_eq (referredByIn_webhook_second s ev uid)
  | inline u ev env => exact refp_subgramCheckCall s u ev env uid

/-- C6 witness: an inline event carrying a different referrer (ref11) does
not overwrite the stored referrer 9 of user 5, which also stays distinct
from 5. -/
theorem claim_c6_witness :
    referredByIn (applyGateStep [⟨5, 0, some 9, none, false⟩]
        (.inline ⟨5, none, none⟩ (.message 5 (some "/start ref11"))
          ⟨none, none, true⟩)) 5 = some 9
    ∧ referredByIn (applyGateStep [⟨5, 0, some 9, none, false⟩]
        (.inline ⟨5, none, none⟩ (.message 5 (some "/start ref11"))
          ⟨none, none, true⟩)) 5 ≠ some 5 :=
  ⟨(claim_c6_referrer_write_once [⟨5, 0, some 9, none, false⟩]
      (.inline ⟨5, none, none⟩ (.message 5 (some "/start ref11"))
        ⟨none, none, true⟩) 5).1 9 (by decide),
   (claim_c6_referrer_write_once [⟨5, 0, some 9, none, false⟩]
      (.inline ⟨5, none, none⟩ (.message 5 (some "/start ref11"))
        ⟨none, none, true⟩) 5).2 (by decide)⟩

/-- C8: when the oracle gives no response on a run that reaches it, the
gate emits the retry-later blocking prompt, no user's verified flag
changes, and a non-gate-callback event does not reach the wrapped
handler. -/
theorem claim_c8_no_response_retry_later (s : Store) (u : TgUser)
    (ev : TgEvent) (env : Env) (c : Int)
    (hc : resolve_chat_id ev = some c)
    (hlang : get_language_block_message u.language_code = none)
    (hv : wasVerifiedIn s u.id = false)
    (ho : env.oracle = none) :
    (subgramCheckCall s u ev env).effects
      = Effect.oracleCall u.id c :: sendBlockingEffects ev c retryLaterText none
    ∧ (∀ i, wasVerifiedIn (subgramCheckCall s u ev env).store i
        = wasVerifiedIn s i)
    ∧ (is_subgram_callback ev = false →
        (subgramCheckCall s u ev env).decision = .blocked) := by
  simp only [subgramCheckCall, hc, hlang, hv, ho, Bool.false_and,
    Bool.false_eq_true, if_false, ite_false]
  refine ⟨by trivial, ?_, ?_⟩
  · intro i
    exact wasVerifiedIn_remember s u.id u.username (extract_referred_by ev u.id)
      (get_user s u.id) i
  · intro hcb
    simp [maybeSubgramDecision, hcb]

/-- C8 witness: concrete unverified user, oracle times out. -/
theorem claim_c8_witness :
    (subgramCheckCall [⟨5, 0, none, none, false⟩] ⟨5, none, none⟩
        (.message 5 (some "hi")) ⟨none, none, true⟩).effects
      = Effect.oracleCall 5 5 :: sendBlockingEffects (.message 5 (some "hi")) 5
          retryLaterText none
    ∧ (∀ i, wasVerifiedIn (subgramCheckCall [⟨5, 0, none, none, false⟩]
        ⟨5, none, none⟩ (.message 5 (some "hi")) ⟨none, none, true⟩).store i
      = wasVerifiedIn [⟨5, 0, none, none, false⟩] i)
    ∧ (is_subgram_callback (TgEvent.message 5 (some "hi")) = false →
        (subgramCheckCall [⟨5, 0, none, none, false⟩] ⟨5, none, none⟩
          (.message 5 (some "hi")) ⟨none, none, true⟩).decision
        = .blocked) :=
  claim_c8_no_response_retry_later [⟨5, 0, none, none, false⟩] ⟨5, none, none⟩
    (.message 5 (some "hi")) ⟨none, none, true⟩ 5 (by decide) (by decide)
    (by decide) (by decide)

/-- C9: the sponsor prompt policy on a Warning verdict returns none for an
empty sponsor list, and for one available unsubscribed linked sponsor it
returns exactly one sponsor link action plus the trailing completion
action. -/
theorem claim_c9_sponsor_prompt_shape :
    build_blocking_prompt ⟨some "warning", none, none, some ⟨some [], none⟩⟩
        (some "warning") = none
    ∧ build_blocking_prompt ⟨some "warning", none, none,
        some ⟨some [⟨some true, some "unsubscribed", some "L", none, none⟩],
          none⟩⟩ (some "warning")
      = some ("Чтобы продолжить, выполните задания:\n• Подписаться\n\nПосле выполнения нажмите «✅ Я выполнил».",
          [⟨"Подписаться", .urlA "L"⟩, ⟨"✅ Я выполнил", .cbA "subgram-op"⟩]) := by
  decide

/-- C10 counterexample: an "fa" user sends a callback that carries no
message, so no chat id resolves; the language gate never fires, no message
is sent and the wrapped handler runs, refuting the unconditional claim. -/
theorem claim_c10_counterexample :
    get_language_block_message (some "fa")
      = some "متأسفانه این ربات برای شما در دسترس نیست."
    ∧ is_subgram_callback (TgEvent.callback none none) = false
    ∧ subgramCheckCall [⟨3, 0, none, none, false⟩] ⟨3, none, some "fa"⟩
        (.callback none none) ⟨none, none, true⟩
      = ⟨[⟨3, 0, none, none, false⟩], [], .handlerRun⟩ := by
  decide

/-- C10 amended: for an inline event whose chat id resolves, a blocked
language code (fa/ar/tr prefix) sends the fixed language message, performs
no oracle call, leaves the store untouched regardless of verification
state, and skips the wrapped handler unless the event is a gate
callback. -/
theorem claim_c10_amended (s : Store) (u : TgUser) (ev : TgEvent) (env : Env)
    (c : Int) (m : String)
    (hc : resolve_chat_id ev = some c)
    (hlang : get_language_block_message u.language_code = some m) :
    (subgramCheckCall s u ev env).store = s
    ∧ (subgramCheckCall s u ev env).effects = sendBlockingEffects ev c m none
    ∧ (∀ a b, Effect.oracleCall a b ∉ (subgramCheckCall s u ev env).effects)
    ∧ (subgramCheckCall s u ev env).decision
      = (if is_subgram_callback ev then .handlerRun else .blocked) := by
  simp only [subgramCheckCall, hc, hlang]
  refine ⟨by trivial, by trivial, ?_, by trivial⟩
  intro a b
  exact oracleCall_not_mem_sendBlocking ev c m none a b

/-- C10 amended witness: an already verified "fa" user sending a plain
message is blocked with the Farsi message and the store is untouched. -/
theorem claim_c10_amended_witness :
    (subgramCheckCall [⟨3, 0, none, none, true⟩] ⟨3, none, some "fa"⟩
        (.message 3 (some "hi")) ⟨none, none, true⟩).store
      = [⟨3, 0, none, none, true⟩]
    ∧ (subgramCheckCall [⟨3, 0, none, none, true⟩] ⟨3, none, some "fa"⟩
        (.message 3 (some "hi")) ⟨none, none, true⟩).effects
      = sendBlockingEffects (.message 3 (some "hi")) 3
          "متأسفانه این ربات برای شما در دسترس نیست." none
    ∧ (∀ a b, Effect.oracleCall a b ∉ (subgramCheckCall [⟨3, 0, none, none, true⟩]
        ⟨3, none, some "fa"⟩ (.message 3 (some "hi")) ⟨none, none, true⟩).effects)
    ∧ (subgramCheckCall [⟨3, 0, none, none, true⟩] ⟨3, none, some "fa"⟩
        (.message 3 (some "hi")) ⟨none, none, true⟩).decision
      = (if is_subgram_callback (TgEvent.message 3 (some "hi"))
          then Decision.handlerRun else Decision.blocked) :=
  claim_c10_amended [⟨3, 0, none, none, true⟩] ⟨3, none, some "fa"⟩
    (.message 3 (some "hi")) ⟨none, none, true⟩ 3
    "متأسفانه این ربات برای شما در دسترس نیست." (by decide) (by decide)

theorem rewardNotify_not_mem_flyerFallback (env : Env) (ev : TgEvent)
    (c : Int) (r : Int) :
    Effect.rewardNotify r ∉ (handle_flyer_fallback env ev c).2 := by
  unfold handle_flyer_fallback
  split <;> simp [rewardNotify_not_mem_sendBlocking]

/-- C7 counterexample: user 7 has stored referrer 99; the same inline event
with the same code-404 Warning response is delivered twice (the verdict
blocks, so the user stays unverified and the oracle is consulted again);
the referrer's balance rises from 0 to 2, refuting "exactly one increment
across any number of duplicate deliveries of the same verdict instance". -/
theorem claim_c7_counterexample :
    balanceOf [⟨7, 0, some 99, none, false⟩, ⟨99, 0, none, none, false⟩] 99
      = some 0
    ∧ balanceOf (subgramCheckCall
        (subgramCheckCall [⟨7, 0, some 99, none, false⟩, ⟨99, 0, none, none, false⟩]
          ⟨7, none, none⟩ (.message 7 (some "hi"))
          ⟨some ⟨some "warning", none, some 404, some ⟨some [], none⟩⟩, none, true⟩).store
        ⟨7, none, none⟩ (.message 7 (some "hi"))
        ⟨some ⟨some "warning", none, some 404, some ⟨some [], none⟩⟩, none, true⟩).store
        99
      = some 2 := by
  decide

/-- C7 amended: each single delivery of a code-404 verdict with a truthy
effective referrer applies exactly one increment of the default amount 1 to
the referrer when the balance write succeeds, and notifies the referrer
exactly then; a failed write changes no balance and sends no notification.
The code keeps no dedup key, so duplicates increment again (see the
counterexample). -/
theorem claim_c7_amended (s : Store) (u : TgUser) (ev : TgEvent) (env : Env)
    (c r : Int) (resp : OracleResponse)
    (hc : resolve_chat_id ev = some c)
    (hlang : get_language_block_message u.language_code = none)
    (hv : wasVerifiedIn s u.id = false)
    (ho : env.oracle = some resp)
    (h404 : resp.code = some 404)
    (her : effectiveReferrer (extract_referred_by ev u.id) (get_user s u.id)
      = some r)
    (hr0 : r ≠ 0) (hru : r ≠ u.id) :
    (env.balanceWriteOk = true →
      balanceOf (subgramCheckCall s u ev env).store r
        = (balanceOf s r).map (fun b => b + 1)
      ∧ Effect.rewardNotify r ∈ (subgramCheckCall s u ev env).effects)
    ∧ (env.balanceWriteOk = false →
      balanceOf (subgramCheckCall s u ev env).store r = balanceOf s r
      ∧ Effect.rewardNotify r ∉ (subgramCheckCall s u ev env).effects) := by
  have hbeq : (resp.code == some 404) = true := by simp [h404]
  have hit : intTruthy (some r) = true := by simp [intTruthy, hr0]
  have hbal1 : balanceOf (remember_user_context s u.id u.username
      (extract_referred_by ev u.id) (get_user s u.id)) r = balanceOf s r :=
    balanceOf_remember s u.id u.username (extract_referred_by ev u.id)
      (get_user s u.id) r hru
  constructor
  · intro hbw
    simp only [subgramCheckCall, hc, hlang, hv, ho, hbeq, stage404, her, hit,
      reward_referrer_for_fake_warning, hbw, finishVerify, Bool.false_and,
      Bool.false_eq_true, if_false, if_true, ite_true, ite_false]
    repeat' split
    all_goals
      constructor
    all_goals
      simp [balanceOf_set_flyer, balanceOf_update_balance_self, hbal1,
        List.mem_append]
  · intro hbw
    simp only [subgramCheckCall, hc, hlang, hv, ho, hbeq, stage404, her, hit,
      reward_referrer_for_fake_warning, hbw, finishVerify, Bool.false_and,
      Bool.false_eq_true, if_false, if_true, ite_true, ite_false]
    repeat' split
    all_goals
      constructor
    all_goals
      simp [balanceOf_set_flyer, hbal1, List.mem_append,
        rewardNotify_not_mem_sendBlocking, rewardNotify_not_mem_handleBlocking,
        rewardNotify_not_mem_ackCleanup, rewardNotify_not_mem_triggerStart,
        rewardNotify_not_mem_flyerFallback]

/-- C7 amended witness: one delivery with a successful write increments
referrer 99 by exactly 1 and notifies. -/
theorem claim_c7_amended_witness :
    balanceOf (subgramCheckCall
        [⟨7, 0, some 99, none, false⟩, ⟨99, 0, none, none, false⟩]
        ⟨7, none, none⟩ (.message 7 (some "hi"))
        ⟨some ⟨some "warning", none, some 404, some ⟨some [], none⟩⟩, none,
          true⟩).store 99
      = (balanceOf [⟨7, 0, some 99, none, false⟩, ⟨99, 0, none, none, false⟩]
          99).map (fun b => b + 1)
    ∧ Effect.rewardNotify 99 ∈ (subgramCheckCall
        [⟨7, 0, some 99, none, false⟩, ⟨99, 0, none, none, false⟩]
        ⟨7, none, none⟩ (.message 7 (some "hi"))
        ⟨some ⟨some "warning", none, some 404, some ⟨some [], none⟩⟩, none,
          true⟩).effects :=
  (claim_c7_amended
    [⟨7, 0, some 99, none, false⟩, ⟨99, 0, none, none, false⟩]
    ⟨7, none, none⟩ (.message 7 (some "hi"))
    ⟨some ⟨some "warning", none, some 404, some ⟨some [], none⟩⟩, none, true⟩
    7 99 ⟨some "warning", none, some 404, some ⟨some [], none⟩⟩
    (by decide) (by decide) (by decide) (by decide) (by decide) (by decide)
    (by decide) (by decide)).1 rfl
